import Mathlib

/-!
A verification development for the delimited_output library
(delimited_output.hpp). The library renders values as delimited text:
strings print verbatim, pairs/tuples/ranges print as delimiter-separated
element lists, recursively, with bracketing that depends on whether the
value is the outermost one or a nested element.

The embedding models the output stream as an accumulated string: the C++
functions take a `std::basic_ostream& out` and only ever append to it, so
each is translated as a function from the stream's current contents to its
new contents. Renderable values are modelled by the inductive type `Value`,
whose constructors correspond to the overloads of `helpers::output`
(lines 267-339 of delimited_output.hpp): default ostream-insertable
objects, C strings, owned strings, string views, pairs, tuples and ranges.
-/

/-- The configuration bundle `basic_delimiters` (delimited_output.hpp lines
106-152), instantiated at CharT = char: each `string_view` field becomes a
`String`, plus the boolean `top_as_sub`. -/
structure Delims where
  top_delim : String
  sub_prefix : String
  sub_delim : String
  sub_suffix : String
  pair_prefix : String
  pair_delim : String
  pair_suffix : String
  top_as_sub : Bool
  empty : String

/-- The default delimiter values (delimited_output.hpp lines 111-148). -/
def delimsDefault : Delims where
  top_delim := ", "
  sub_prefix := "("
  sub_delim := ", "
  sub_suffix := ")"
  pair_prefix := "["
  pair_delim := ": "
  pair_suffix := "]"
  top_as_sub := false
  empty := "<empty>"

/-- A renderable value: one constructor per overload of `helpers::output`.
`scalar s` is any ostream-insertable object whose `operator<<` prints `s`;
`cstr` is a (non-null) `const CharT*`, `str` a `std::basic_string`,
`strview` a `std::basic_string_view`; `pair`, `tuple` and `range` are the
composite shapes. A map is a `range` whose elements are `pair`s. -/
inductive Value where
  | scalar (s : String)
  | cstr (s : String)
  | str (s : String)
  | strview (s : String)
  | pair (fst snd : Value)
  | tuple (elems : List Value)
  | range (elems : List Value)

mutual

/-- `helpers::output(x, delims, as_sub, out)` (delimited_output.hpp lines
267-339), with the stream passed as the accumulated string. Case by case:
line 269 (`out << x`), line 275 (`if (*str) out << str; else out <<
delims.empty;` - for a non-null pointer `*str` is nonzero exactly when the
string is nonempty), lines 279 and 283 (the same test via `str.size()`),
lines 288-296 (pair), lines 301-316 (tuple: `n == 0` test, delimiter choice,
and the fold that prepends `delim2`, initially empty, before each element),
lines 321-339 (range: first element rendered, then delimiter-prefixed rest). -/
def output : Value → Delims → Bool → String → String
  | .scalar s, _, _, out => out ++ s
  | .cstr s, delims, _, out =>
      if s.length ≠ 0 then out ++ s else out ++ delims.empty
  | .str s, delims, _, out =>
      if s.length ≠ 0 then out ++ s else out ++ delims.empty
  | .strview s, delims, _, out =>
      if s.length ≠ 0 then out ++ s else out ++ delims.empty
  | .pair a c, delims, as_sub, out =>
      let out1 := if as_sub then out ++ delims.pair_prefix else out
      let out2 := output a delims true out1
      let out3 := out2 ++ delims.pair_delim
      let out4 := output c delims true out3
      if as_sub then out4 ++ delims.pair_suffix else out4
  | .tuple es, delims, as_sub, out =>
      let out1 := if as_sub then out ++ delims.sub_prefix else out
      let out2 :=
        if es.length = 0 then out1 ++ delims.empty
        else outputTupleElems es delims
          (if as_sub then delims.sub_delim else delims.top_delim) out1 ""
      if as_sub then out2 ++ delims.sub_suffix else out2
  | .range es, delims, as_sub, out =>
      let out1 := if as_sub then out ++ delims.sub_prefix else out
      let out2 :=
        match es with
        | [] => out1 ++ delims.empty
        | itr :: rest =>
            outputRangeRest rest delims
              (if as_sub then delims.sub_delim else delims.top_delim)
              (output itr delims true out1)
      if as_sub then out2 ++ delims.sub_suffix else out2

/-- The fold body of the tuple overload (line 311): for each element, emit
`delim2`, render the element with as_sub = true, then set `delim2 = delim`.
The last argument is the current value of `delim2` (initially `""`). -/
def outputTupleElems : List Value → Delims → String → String → String → String
  | [], _, _, out, _ => out
  | arg :: rest, delims, delim, out, delim2 =>
      outputTupleElems rest delims delim
        (output arg delims true (out ++ delim2)) delim

/-- The while-loop of the range overload (lines 332-335): for each remaining
element, emit `delim` then render the element with as_sub = true. -/
def outputRangeRest : List Value → Delims → String → String → String
  | [], _, _, out => out
  | itr :: rest, delims, delim, out =>
      outputRangeRest rest delims delim (output itr delims true (out ++ delim))

end

/-- The public entry point: the stream inserter of `helpers::inserter`
(lines 203-204) calls `output(di.obj, di.delims, di.delims.top_as_sub, out)`. -/
def streamInsert (v : Value) (delims : Delims) (out : String) : String :=
  output v delims delims.top_as_sub out

/-- The text a call appends to an empty stream: rendering into a fresh sink. -/
def render (v : Value) (delims : Delims) (as_sub : Bool) : String :=
  output v delims as_sub ""

/-- The C-string overload one level lower, at the pointer (lines 273-275):
the argument models the `const CharT*` itself, `none` being a null pointer
and `some s` a valid pointer to the characters `s`. The test `if (*str)`
dereferences the pointer before anything else, so on a null pointer the call
has no defined result (`none`); on a valid pointer it behaves as the `cstr`
case of `output`. -/
def outputCPtr : Option String → Delims → Bool → String → Option String
  | none, _, _, _ => none
  | some s, delims, _, out =>
      some (if s.length ≠ 0 then out ++ s else out ++ delims.empty)

/-- The helper object `helpers::inserter` (lines 191-244): it stores the
object to render and a delimiters bundle. -/
structure Inserter where
  obj : Value
  delims : Delims

/-- The setter `inserter::delimiter` (lines 212-213): sets `top_delim` and
`sub_delim` to the given string and returns the updated inserter (the C++
returns `*this` so calls can be chained). -/
def Inserter.delimiter (i : Inserter) (s : String) : Inserter :=
  { i with delims := { i.delims with top_delim := s, sub_delim := s } }

mutual

/-- Instrumentation of the recursive call structure of `output`: the list of
"render as nested" flags passed at every (direct or transitive) recursive
call on a constituent element, given that this call itself received flag
`b`. Each call site in the source passes the literal `true`: lines 291 and
293 (pair components), line 311 (tuple elements), lines 330 and 334 (range
elements). String and scalar cases make no recursive calls. -/
def childFlags : Value → Bool → List Bool
  | .scalar _, _ => []
  | .cstr _, _ => []
  | .str _, _ => []
  | .strview _, _ => []
  | .pair a c, _ => (true :: childFlags a true) ++ (true :: childFlags c true)
  | .tuple es, _ => childFlagsList es
  | .range es, _ => childFlagsList es

/-- Flags passed while rendering each element of a list of elements, each
element being rendered with flag `true`. -/
def childFlagsList : List Value → List Bool
  | [] => []
  | e :: rest => (true :: childFlags e true) ++ childFlagsList rest

end

/-- A list of rendered elements joined by a delimiter: the delimiter is
inserted exactly (length - 1) times, once between each adjacent pair of
elements, and nowhere else. Used to state the delimiter-count property. -/
def sepConcat (delim : String) : List String → String
  | [] => ""
  | [x] => x
  | x :: y :: rest => x ++ (delim ++ sepConcat delim (y :: rest))

/- Helper lemmas. -/

mutual

/-- The text `output` appends does not depend on what the stream already
holds: prepending `s` to the stream prepends `s` to the result. -/
theorem output_prepend : ∀ (v : Value) (d : Delims) (b : Bool) (s t : String),
    output v d b (s ++ t) = s ++ output v d b t
  | .scalar x, d, b, s, t => by
      simp [output, String.append_assoc]
  | .cstr x, d, b, s, t => by
      by_cases h : x.length = 0 <;> simp [output, h, String.append_assoc]
  | .str x, d, b, s, t => by
      by_cases h : x.length = 0 <;> simp [output, h, String.append_assoc]
  | .strview x, d, b, s, t => by
      by_cases h : x.length = 0 <;> simp [output, h, String.append_assoc]
  | .pair a c, d, b, s, t => by
      cases b <;>
        simp [output, String.append_assoc, output_prepend a, output_prepend c]
  | .tuple [], d, b, s, t => by
      cases b <;> simp [output, String.append_assoc]
  | .tuple (e :: rest), d, b, s, t => by
      cases b <;>
        simp [output, String.append_assoc, outputTupleElems_prepend (e :: rest)]
  | .range [], d, b, s, t => by
      cases b <;> simp [output, String.append_assoc]
  | .range (e :: rest), d, b, s, t => by
      cases b <;>
        simp [output, String.append_assoc, output_prepend e,
          outputRangeRest_prepend rest]

theorem outputTupleElems_prepend :
    ∀ (es : List Value) (d : Delims) (delim s t d2 : String),
    outputTupleElems es d delim (s ++ t) d2 =
      s ++ outputTupleElems es d delim t d2
  | [], d, delim, s, t, d2 => by simp [outputTupleElems]
  | e :: rest, d, delim, s, t, d2 => by
      simp [outputTupleElems, String.append_assoc, output_prepend e,
        outputTupleElems_prepend rest]

theorem outputRangeRest_prepend :
    ∀ (es : List Value) (d : Delims) (delim s t : String),
    outputRangeRest es d delim (s ++ t) = s ++ outputRangeRest es d delim t
  | [], d, delim, s, t => by simp [outputRangeRest]
  | e :: rest, d, delim, s, t => by
      simp [outputRangeRest, String.append_assoc, output_prepend e,
        outputRangeRest_prepend rest]

end

/-- A call on any stream state appends exactly the text it would emit into a
fresh sink. -/
theorem output_eq_append_render (v : Value) (d : Delims) (b : Bool)
    (s : String) : output v d b s = s ++ render v d b := by
  have h := output_prepend v d b s ""
  rw [String.append_empty] at h
  simpa [render] using h

theorem string_length_eq_zero_iff (s : String) : s.length = 0 ↔ s = "" := by
  constructor
  · intro h
    cases s with
    | mk data =>
        cases data with
        | nil => rfl
        | cons a l => simp [String.length] at h
  · intro h
    subst h
    rfl

mutual

theorem childFlags_all_true : ∀ (v : Value) (b : Bool),
    ∀ f ∈ childFlags v b, f = true
  | .scalar _, _ => by simp [childFlags]
  | .cstr _, _ => by simp [childFlags]
  | .str _, _ => by simp [childFlags]
  | .strview _, _ => by simp [childFlags]
  | .pair a c, b => by
      intro f hf
      simp only [childFlags] at hf
      rcases List.mem_append.mp hf with h1 | h2
      · rcases List.mem_cons.mp h1 with rfl | h1'
        · rfl
        · exact childFlags_all_true a true f h1'
      · rcases List.mem_cons.mp h2 with rfl | h2'
        · rfl
        · exact childFlags_all_true c true f h2'
  | .tuple es, b => by
      intro f hf
      simp only [childFlags] at hf
      exact childFlagsList_all_true es f hf
  | .range es, b => by
      intro f hf
      simp only [childFlags] at hf
      exact childFlagsList_all_true es f hf

theorem childFlagsList_all_true : ∀ (es : List Value),
    ∀ f ∈ childFlagsList es, f = true
  | [] => by simp [childFlagsList]
  | e :: rest => by
      intro f hf
      simp only [childFlagsList] at hf
      rcases List.mem_append.mp hf with h1 | h2
      · rcases List.mem_cons.mp h1 with rfl | h1'
        · rfl
        · exact childFlags_all_true e true f h1'
      · exact childFlagsList_all_true rest f h2

end

/-- The range loop started after a first rendered element produces the
delimiter-joined rendering of all the elements. -/
theorem outputRangeRest_sep (es : List Value) (d : Delims) (delim : String) :
    ∀ (e : Value) (out : String),
    outputRangeRest es d delim (output e d true out) =
      out ++ sepConcat delim
        (render e d true :: es.map fun x => render x d true) := by
  induction es with
  | nil =>
      intro e out
      simp [outputRangeRest, sepConcat, output_eq_append_render]
  | cons e2 rest ih =>
      intro e out
      rw [outputRangeRest, ih e2 (output e d true out ++ delim)]
      simp [output_eq_append_render, sepConcat, String.append_assoc]

/-- Once `delim2` has been set to `delim`, the tuple fold and the range loop
do the same thing. -/
theorem outputTupleElems_eq_rangeRest (es : List Value) (d : Delims)
    (delim : String) : ∀ out : String,
    outputTupleElems es d delim out delim = outputRangeRest es d delim out := by
  induction es with
  | nil => intro out; rfl
  | cons e rest ih =>
      intro out
      rw [outputTupleElems, outputRangeRest, ih]

/-- The tuple fold on a nonempty list: the first element is rendered with no
preceding delimiter (`delim2` starts out empty), then the loop continues
exactly like the range loop. -/
theorem outputTupleElems_first (e : Value) (rest : List Value) (d : Delims)
    (delim out : String) :
    outputTupleElems (e :: rest) d delim out "" =
      outputRangeRest rest d delim (output e d true out) := by
  rw [outputTupleElems, String.append_empty, outputTupleElems_eq_rangeRest]

/- Claim theorems. -/

/-- C1: the public entry point passes initial flag `config.top_as_sub` to the
rendering function, and every recursive call the engine makes on a
constituent element (pair component, tuple element, sequence element) passes
as_sub = true unconditionally, regardless of the flag the enclosing call
received. -/
theorem entry_and_child_flags (v : Value) (d : Delims) (out : String) :
    streamInsert v d out = output v d d.top_as_sub out ∧
    ∀ (b : Bool), ∀ f ∈ childFlags v b, f = true :=
  ⟨rfl, fun b f hf => childFlags_all_true v b f hf⟩

/-- C2: a pair rendered with as_sub = false yields exactly
render(first) ++ pair_delim ++ render(second) with no surrounding brackets,
and with as_sub = true yields exactly
pair_prefix ++ render(first) ++ pair_delim ++ render(second) ++ pair_suffix,
both components rendered with as_sub = true. -/
theorem pair_render_eq (a c : Value) (d : Delims) :
    render (Value.pair a c) d false =
      render a d true ++ d.pair_delim ++ render c d true ∧
    render (Value.pair a c) d true =
      d.pair_prefix ++ render a d true ++ d.pair_delim ++ render c d true ++
        d.pair_suffix := by
  constructor
  · rw [show render (Value.pair a c) d false =
        output c d true (output a d true "" ++ d.pair_delim) from rfl,
      output_eq_append_render a, String.empty_append, output_eq_append_render c]
  · rw [show render (Value.pair a c) d true =
        output c d true
          (output a d true ("" ++ d.pair_prefix) ++ d.pair_delim) ++
          d.pair_suffix from rfl,
      String.empty_append, output_eq_append_render a, output_eq_append_render c]

/-- C3 (amended): rendering an empty tuple or empty sequence with
as_sub = false produces exactly the config.empty placeholder, but with
as_sub = true the sub-level brackets are still emitted around the
placeholder: the output is sub_prefix ++ empty ++ sub_suffix, not the bare
placeholder. -/
theorem empty_render_eq (d : Delims) :
    render (Value.tuple []) d false = d.empty ∧
    render (Value.range []) d false = d.empty ∧
    render (Value.tuple []) d true = d.sub_prefix ++ d.empty ++ d.sub_suffix ∧
    render (Value.range []) d true = d.sub_prefix ++ d.empty ++ d.sub_suffix := by
  refine ⟨?_, ?_, ?_, ?_⟩ <;>
    simp [render, output, String.empty_append, String.append_assoc]

/-- C3 (counterexample): with the default configuration, an empty tuple or
empty sequence rendered as a nested element does not produce the bare
config.empty placeholder ("<empty>"): it produces "(<empty>)". -/
theorem empty_nested_not_bare :
    render (Value.tuple []) delimsDefault true ≠ delimsDefault.empty ∧
    render (Value.range []) delimsDefault true ≠ delimsDefault.empty ∧
    render (Value.range []) delimsDefault true = "(<empty>)" := by
  refine ⟨?_, ?_, rfl⟩ <;> decide

/-- C4 (amended): the C-string overload dereferences the pointer before
anything else, so a null string-shaped input has no defined result - no
placeholder is substituted and rendering does not complete; the call
completes exactly when the pointer is non-null, and a non-null empty string
yields the config.empty placeholder. -/
theorem cstr_null_vs_nonnull (p : Option String) (d : Delims) (b : Bool)
    (out : String) :
    (outputCPtr p d b out).isSome = p.isSome ∧
    outputCPtr none d b out = none ∧
    outputCPtr (some "") d b out = some (out ++ d.empty) := by
  refine ⟨?_, rfl, rfl⟩
  cases p <;> simp [outputCPtr]

/-- C4 (counterexample): at the concrete input of a null C-string pointer
with the default configuration, the render operation yields no result at
all (the code dereferences the null pointer at line 275); in particular it
does not substitute the placeholder and complete. -/
theorem null_cstr_no_output :
    outputCPtr none delimsDefault false "" = none ∧
    (outputCPtr none delimsDefault false "").isSome = false := ⟨rfl, rfl⟩

/-- C5: a non-empty sequence or tuple of length n renders as its elements
(each rendered with as_sub = true) joined by the chosen delimiter
(sub_delim when as_sub = true, top_delim when as_sub = false): the
delimiter occurs exactly n - 1 times at the top syntactic level of the
composite, once between each adjacent pair of the n rendered elements. -/
theorem nonempty_delim_count (es : List Value) (d : Delims) (b : Bool)
    (h : es ≠ []) :
    (es.map fun e => render e d true).length = es.length ∧
    render (Value.range es) d b =
      (if b then d.sub_prefix else "") ++
        sepConcat (if b then d.sub_delim else d.top_delim)
          (es.map fun e => render e d true) ++
        (if b then d.sub_suffix else "") ∧
    render (Value.tuple es) d b =
      (if b then d.sub_prefix else "") ++
        sepConcat (if b then d.sub_delim else d.top_delim)
          (es.map fun e => render e d true) ++
        (if b then d.sub_suffix else "") := by
  match es, h with
  | e :: rest, _ =>
      refine ⟨by simp, ?_, ?_⟩
      · cases b <;>
          simp [render, output, outputRangeRest_sep, String.empty_append,
            String.append_empty, String.append_assoc, sepConcat]
      · cases b <;>
          simp [render, output, outputTupleElems_first, outputRangeRest_sep,
            String.empty_append, String.append_empty, String.append_assoc,
            sepConcat]

def sampleSeq : List Value :=
  [Value.scalar "10", Value.scalar "20", Value.scalar "30"]

theorem nonempty_delim_count_witness :
    (sampleSeq.map fun e => render e delimsDefault true).length =
      sampleSeq.length ∧
    render (Value.range sampleSeq) delimsDefault false =
      (if false then delimsDefault.sub_prefix else "") ++
        sepConcat
          (if false then delimsDefault.sub_delim else delimsDefault.top_delim)
          (sampleSeq.map fun e => render e delimsDefault true) ++
        (if false then delimsDefault.sub_suffix else "") ∧
    render (Value.tuple sampleSeq) delimsDefault false =
      (if false then delimsDefault.sub_prefix else "") ++
        sepConcat
          (if false then delimsDefault.sub_delim else delimsDefault.top_delim)
          (sampleSeq.map fun e => render e delimsDefault true) ++
        (if false then delimsDefault.sub_suffix else "") :=
  nonempty_delim_count sampleSeq delimsDefault false (by simp [sampleSeq])

/-- C6: every string value (C-style string, owned string, or string view)
renders as its characters verbatim, with no brackets and no delimiter
splitting, for both values of as_sub; a zero-length string renders as
exactly config.empty. -/
theorem string_render_verbatim (s : String) (d : Delims) (b : Bool) :
    render (Value.cstr s) d b = (if s = "" then d.empty else s) ∧
    render (Value.str s) d b = (if s = "" then d.empty else s) ∧
    render (Value.strview s) d b = (if s = "" then d.empty else s) := by
  by_cases h : s = ""
  · subst h
    refine ⟨?_, ?_, ?_⟩ <;> simp [render, output, String.empty_append]
  · have hl : ¬ s.length = 0 := fun hz => h ((string_length_eq_zero_iff s).mp hz)
    refine ⟨?_, ?_, ?_⟩ <;> simp [render, output, h, hl, String.empty_append]

def mapEntries : List Value :=
  [Value.pair (Value.scalar "1") (Value.str "One"),
   Value.pair (Value.scalar "2") (Value.str "Two"),
   Value.pair (Value.scalar "3") (Value.str "Three")]

def mapValue : Value := Value.range mapEntries

/-- C7: the map with entries 1:"One", 2:"Two", 3:"Three" in key order, under
the default configuration, renders as "[1: One], [2: Two], [3: Three]";
each entry is a nested pair rendered through the pair rule (bracketed) and
the entries are joined by top_delim by the plain sequence rule, with no
map-specific code path. -/
theorem map_scenario_render :
    streamInsert mapValue delimsDefault "" = "[1: One], [2: Two], [3: Three]" ∧
    render (Value.pair (Value.scalar "1") (Value.str "One")) delimsDefault
      true = "[1: One]" ∧
    streamInsert mapValue delimsDefault "" =
      sepConcat delimsDefault.top_delim
        (mapEntries.map fun e => render e delimsDefault true) :=
  ⟨rfl, rfl, rfl⟩

/-- C8: the delimiter(x) mutator sets both top_delim and sub_delim to x,
leaves pair_delim and every other field unchanged, keeps the same stored
object, and returns the configuration-carrying inserter itself so calls can
be chained. -/
theorem delimiter_setter_frame (i : Inserter) (s : String) :
    (i.delimiter s).delims.top_delim = s ∧
    (i.delimiter s).delims.sub_delim = s ∧
    (i.delimiter s).delims.pair_delim = i.delims.pair_delim ∧
    (i.delimiter s).delims.sub_prefix = i.delims.sub_prefix ∧
    (i.delimiter s).delims.sub_suffix = i.delims.sub_suffix ∧
    (i.delimiter s).delims.pair_prefix = i.delims.pair_prefix ∧
    (i.delimiter s).delims.pair_suffix = i.delims.pair_suffix ∧
    (i.delimiter s).delims.top_as_sub = i.delims.top_as_sub ∧
    (i.delimiter s).delims.empty = i.delims.empty ∧
    (i.delimiter s).obj = i.obj :=
  ⟨rfl, rfl, rfl, rfl, rfl, rfl, rfl, rfl, rfl, rfl⟩

/-- C9: rendering is deterministic and keeps no state between calls: the
text a render call appends to the stream does not depend on what the stream
already holds, so rendering the same value with the same configuration
twice appends the identical text both times. -/
theorem render_deterministic (v : Value) (d : Delims) (s : String) :
    streamInsert v d s = s ++ streamInsert v d "" ∧
    streamInsert v d (streamInsert v d s) =
      s ++ streamInsert v d "" ++ streamInsert v d "" := by
  have h : ∀ t : String, streamInsert v d t = t ++ streamInsert v d "" :=
    fun t => output_eq_append_render v d d.top_as_sub t
  exact ⟨h s, by rw [h (streamInsert v d s), h s]⟩

/-- C10: an empty tuple or empty sequence rendered with as_sub = true
(whether as a nested element or at top level because top_as_sub is true)
produces exactly sub_prefix ++ empty ++ sub_suffix: the sub-level brackets
are still emitted around the placeholder, so the default configuration
renders a nested empty sequence as "(<empty>)" rather than "<empty>". -/
theorem empty_nested_bracketed (d : Delims) :
    render (Value.tuple []) d true = d.sub_prefix ++ d.empty ++ d.sub_suffix ∧
    render (Value.range []) d true = d.sub_prefix ++ d.empty ++ d.sub_suffix ∧
    streamInsert (Value.tuple []) { d with top_as_sub := true } "" =
      d.sub_prefix ++ d.empty ++ d.sub_suffix ∧
    streamInsert (Value.range []) { d with top_as_sub := true } "" =
      d.sub_prefix ++ d.empty ++ d.sub_suffix ∧
    render (Value.range []) delimsDefault true = "(<empty>)" := by
  refine ⟨?_, ?_, ?_, ?_, rfl⟩ <;>
    simp [render, streamInsert, output, String.empty_append, String.append_assoc]
